import Mathlib

/-
Verification of the data-flow logic of the carbon-tracker dashboard
(src/app.py, src/fixed_model.py): model loading / validation / rebuild
fallback and the derived-metrics computation pipeline.

Embedding conventions:
* A dataset row (one record of country_emissions.csv) is `EmissionsRecord`;
  a pandas DataFrame of such rows is a `List EmissionsRecord` kept in row
  order, and the `df is None` case is an `Option` at the call sites that
  can receive `None`.
* Python floats are embedded as `ℚ` (exact arithmetic on the literals the
  program uses).
* A Python call that may raise is embedded as an `Except String` value;
  the effectful boundary calls of app.py (pd.read_csv, joblib.load,
  Pipeline.fit, joblib.dump) are fields of an `Env` record so that every
  success/failure combination of the outside world can be analysed.
* A fitted sklearn pipeline whose first stage one-hot encodes the country
  with handle_unknown set to ignore and scales the year answers every
  (country, year) query without raising, so a freshly fitted pipeline is
  embedded with a total `predict` function.  A deserialized artifact of
  unknown provenance may raise on predict, hence its `predict` is
  `Except`-valued.
-/

namespace CarbonTracker

/-- One row of country_emissions.csv: columns Country, Year,
Per_Capita_CO2_kg (the optional total-emissions column plays no role in
the verified logic). -/
structure EmissionsRecord where
  country : String
  year : Int
  perCapitaCO2 : ℚ
deriving DecidableEq, Repr

/-- A loaded DataFrame, in row order. -/
abbrev Dataset := List EmissionsRecord

/-- The dataset invariant stated by the spec: each (country, year) pair
occurs at most once. -/
def uniqueCountryYear (df : Dataset) : Prop :=
  df.Pairwise (fun a b => ¬(a.country = b.country ∧ a.year = b.year))

instance (df : Dataset) : Decidable (uniqueCountryYear df) :=
  haveI : DecidableRel (fun a b : EmissionsRecord =>
      ¬(a.country = b.country ∧ a.year = b.year)) :=
    fun a b => inferInstanceAs (Decidable ¬(a.country = b.country ∧ a.year = b.year))
  List.instDecidablePairwise df

/-- Row comparison by the Year column, the sort key of
sort_values in get_country_data. -/
def yearLE (a b : EmissionsRecord) : Prop :=
  a.year ≤ b.year

instance : DecidableRel yearLE :=
  fun a b => Int.decLe a.year b.year

instance : IsTotal EmissionsRecord yearLE :=
  ⟨fun a b => Int.le_total a.year b.year⟩

instance : IsTrans EmissionsRecord yearLE :=
  ⟨fun _ _ _ h1 h2 => le_trans h1 h2⟩

/-- A model artifact deserialized by joblib.load: calling predict on it
may raise (e.g. the artifact was built with string transformer names). -/
structure LoadedArtifact where
  predict : String → Int → Except String ℚ

/-- A pipeline freshly fitted by rebuild_model / fixed_model.py:
OneHotEncoder with handle_unknown ignore plus StandardScaler feeding a
RandomForestRegressor.  Such a pipeline answers every (country, year)
query, so its predict is total. -/
structure FittedPipeline where
  predict : String → Int → ℚ

/-- The model in use by the app: either the artifact loaded from disk or
the rebuilt in-memory pipeline. -/
inductive ResolvedModel where
  | loaded (a : LoadedArtifact)
  | rebuilt (p : FittedPipeline)

/-- Invoking model.predict on the resolved model. -/
def ResolvedModel.predictE : ResolvedModel → String → Int → Except String ℚ
  | .loaded a, c, y => a.predict c y
  | .rebuilt p, c, y => .ok (p.predict c y)

/-- The effectful boundary of app.py: each field is one outside-world
call together with its outcome in the scenario under analysis. -/
structure Env where
  readCsv : Except String Dataset
  loadArtifact : Except String LoadedArtifact
  fit : Dataset → Except String FittedPipeline
  dump : FittedPipeline → Except String Unit

/-- rebuild_model (app.py lines 34-64).  The whole body, including the
joblib.dump call, sits inside one try/except that returns None on any
exception, so a dump failure also lands in the except branch. -/
def rebuild_model (env : Env) (emissions_df : Dataset) : Option FittedPipeline :=
  match env.fit emissions_df with
  | .error _ => none
  | .ok model =>
    match env.dump model with
    | .error _ => none
    | .ok _ => some model

/-- The smoke test of load_resources (app.py lines 79-85): predict on the
synthetic single-row input (United States, 2020). -/
def smoke_test (a : LoadedArtifact) : Except String ℚ :=
  a.predict "United States" 2020

/-- The inner try of load_resources: load the artifact, then smoke-test
it; the first raise aborts the sequence. -/
def load_and_smoke (env : Env) : Except String LoadedArtifact :=
  match env.loadArtifact with
  | .error e => .error e
  | .ok a =>
    match smoke_test a with
    | .error e => .error e
    | .ok _ => .ok a

/-- sorted(emissions_df['Country'].unique()) of app.py line 72. -/
def country_list_of (df : Dataset) : List String :=
  List.insertionSort (fun a b => a ≤ b) (df.map (·.country)).dedup

/-- The triple returned by load_resources, extended with an
instrumentation field counting how many times rebuild_model was invoked
during resolution. -/
structure Resources where
  model : Option ResolvedModel
  emissions_df : Option Dataset
  country_list : List String
  rebuild_calls : Nat

/-- load_resources (app.py lines 68-103): read the csv; try to load and
smoke-test the persisted artifact; on any failure of that inner step,
rebuild from the full dataset, and surface None as the model when the
rebuild itself fails. -/
def load_resources (env : Env) : Resources :=
  match env.readCsv with
  | .error _ => ⟨none, none, [], 0⟩
  | .ok emissions_df =>
    match load_and_smoke env with
    | .ok a => ⟨some (.loaded a), some emissions_df, country_list_of emissions_df, 0⟩
    | .error _ =>
      match rebuild_model env emissions_df with
      | none => ⟨none, some emissions_df, country_list_of emissions_df, 1⟩
      | some m => ⟨some (.rebuilt m), some emissions_df, country_list_of emissions_df, 1⟩

/-- What main renders, at the granularity the claims need: when the
resolved model is None, main shows one error and returns at once (app.py
lines 164-168), rendering nothing else — in particular no dataset view. -/
inductive MainOutcome where
  | abortNoModel
  | dashboard (model : ResolvedModel) (emissions_df : Dataset) (countries : List String)

/-- The resource check at the top of main (app.py lines 162-170). -/
def main_outcome (env : Env) : MainOutcome :=
  let r := load_resources env
  match r.model with
  | none => .abortNoModel
  | some m => .dashboard m (r.emissions_df.getD []) r.country_list

/-- calculate_emissions (app.py lines 113-128): predict, and on any
exception return the fallback constant 5000.0 instead of propagating. -/
def calculate_emissions (model : ResolvedModel) (country : String) (year : Int) : ℚ :=
  match model.predictE country year with
  | .ok p => p
  | .error _ => 5000

/-- get_country_data (app.py lines 131-135): empty frame on a None
dataset, otherwise the rows whose Country equals the query, sorted
ascending by Year. -/
def get_country_data (df : Option Dataset) (country : String) : Dataset :=
  match df with
  | none => []
  | some l => List.insertionSort yearLE (l.filter (fun r => r.country == country))

/-- The current-emissions computation of main (app.py lines 214-219): if
the analysis year occurs in the country series take the first stored
value at that year (values[0]), else fall back to the model via
calculate_emissions. -/
def current_emissions (emissions_df : Dataset) (model : ResolvedModel)
    (country : String) (year : Int) : ℚ :=
  match ((get_country_data (some emissions_df) country).filter
      (fun r => r.year == year)).head? with
  | some r => r.perCapitaCO2
  | none => calculate_emissions model country year

/-- get_reduction_targets (app.py lines 138-143). -/
def get_reduction_targets (current : ℚ) : List (String × ℚ) :=
  [("2030 (SDG Target)", current * 0.5),
   ("2040", current * 0.3),
   ("2050 (Net Zero)", current * 0.1)]

/-- Series.max over the Year column of a country frame (0 is never
reached: main only takes the maximum of a nonempty series). -/
def latest_year : Dataset → Int
  | [] => 0
  | [r] => r.year
  | r :: s :: rest => max r.year (latest_year (s :: rest))

/-- One row of the comparison table of main. -/
structure ComparisonEntry where
  country : String
  latestYear : Int
  perCapita : ℚ
deriving DecidableEq, Repr

/-- The body of the comparison loop of main (app.py lines 291-300) for
one requested country: skip it when it has no rows, otherwise report the
latest year of its series and the first stored value at that year
(values[0]). -/
def snapshot_entry (df : Option Dataset) (country : String) : Option ComparisonEntry :=
  if get_country_data df country = [] then none
  else
    match ((get_country_data df country).filter
        (fun r => r.year == latest_year (get_country_data df country))).head? with
    | some r => some ⟨country, latest_year (get_country_data df country), r.perCapitaCO2⟩
    | none => none

/-- The comparison loop of main (app.py lines 290-300): fold over the
requested countries, appending one entry per country that has data. -/
def comparison_data (df : Option Dataset) (countries : List String) : List ComparisonEntry :=
  countries.foldl
    (fun acc country =>
      match snapshot_entry df country with
      | some e => acc ++ [e]
      | none => acc)
    []

/-- Series.idxmax on the Per_Capita_CO2_kg column: the first row of the
frame, in its current row order, attaining the maximum value. -/
def first_max_by (f : EmissionsRecord → ℚ) : Dataset → Option EmissionsRecord
  | [] => none
  | a :: rest =>
    match first_max_by f rest with
    | none => some a
    | some b => if f a < f b then some b else some a

/-- The historical-peak metric of main (app.py lines 231-233): the
maximum per-capita value of the country series together with the Year at
the idxmax row of the year-sorted series. -/
def historical_peak (df : Option Dataset) (country : String) : Option (ℚ × Int) :=
  match first_max_by (fun r => r.perCapitaCO2) (get_country_data df country) with
  | some r => some (r.perCapitaCO2, r.year)
  | none => none

/-- A small concrete dataset used by the witnesses.  Country A attains its
maximum per-capita value (100) in both 2017 and 2019. -/
def sampleDf : Dataset :=
  [⟨"A", 2019, 100⟩, ⟨"B", 2019, 300⟩, ⟨"A", 2018, 90⟩, ⟨"A", 2017, 100⟩]

/-- A deserialized artifact whose predict always raises (the situation the
original string-transformer artifact of the repository is in). -/
def modelBroken : ResolvedModel :=
  .loaded ⟨fun _ _ => .error "transformers given as strings"⟩

/-- A concrete working model used by the witnesses. -/
def modelConst : ResolvedModel :=
  .rebuilt ⟨fun _ _ => 7⟩

/-- A concrete fitted pipeline used by the witnesses. -/
def fittedSample : FittedPipeline :=
  ⟨fun _ _ => 9⟩

/-- Scenario: artifact absent, fitting succeeds, persisting raises. -/
def envDumpFails : Env :=
  { readCsv := .ok sampleDf
  , loadArtifact := .error "FileNotFoundError"
  , fit := fun _ => .ok fittedSample
  , dump := fun _ => .error "PermissionError" }

/-- Scenario: artifact absent, fitting and persisting both succeed. -/
def envRebuildOk : Env :=
  { readCsv := .ok sampleDf
  , loadArtifact := .error "FileNotFoundError"
  , fit := fun _ => .ok fittedSample
  , dump := fun _ => .ok () }

/-- Scenario: artifact absent and fitting itself raises, so no model can
be resolved, while the dataset has loaded fine. -/
def envNoModel : Env :=
  { readCsv := .ok sampleDf
  , loadArtifact := .error "FileNotFoundError"
  , fit := fun _ => .error "TrainingError"
  , dump := fun _ => .ok () }

end CarbonTracker

namespace CarbonTracker

/-- Two rows of a dataset satisfying the uniqueness invariant that agree
on country and year are the same row. -/
theorem unique_pair_eq {df : Dataset} (hU : uniqueCountryYear df)
    {a b : EmissionsRecord} (ha : a ∈ df) (hb : b ∈ df)
    (hc : a.country = b.country) (hy : a.year = b.year) : a = b := by
  by_contra hne
  have hsymm : Symmetric (fun a b : EmissionsRecord =>
      ¬(a.country = b.country ∧ a.year = b.year)) := by
    intro x y h hxy
    exact h ⟨hxy.1.symm, hxy.2.symm⟩
  exact List.Pairwise.forall hsymm hU ha hb hne ⟨hc, hy⟩

/-- The country frame is a permutation of the country filter of the
dataset. -/
theorem get_country_data_perm (df : Dataset) (c : String) :
    (get_country_data (some df) c).Perm (df.filter (fun r => r.country == c)) :=
  List.perm_insertionSort yearLE _

/-- Membership in the country frame. -/
theorem mem_get_country_data {df : Dataset} {c : String} {x : EmissionsRecord} :
    x ∈ get_country_data (some df) c ↔ x ∈ df ∧ x.country = c := by
  rw [(get_country_data_perm df c).mem_iff, List.mem_filter]
  simp

/-- The country frame is sorted (weakly) ascending by year. -/
theorem get_country_data_sorted (df : Dataset) (c : String) :
    List.Pairwise yearLE (get_country_data (some df) c) :=
  List.sorted_insertionSort yearLE _

/-- Under the uniqueness invariant the country frame is sorted strictly
ascending by year. -/
theorem get_country_data_strict {df : Dataset} (hU : uniqueCountryYear df)
    (c : String) :
    List.Pairwise (fun a b => a.year < b.year) (get_country_data (some df) c) := by
  have hPW : List.Pairwise (fun a b : EmissionsRecord =>
      ¬(a.country = b.country ∧ a.year = b.year))
      (df.filter (fun r => r.country == c)) :=
    List.Pairwise.sublist (List.filter_sublist df) hU
  have hsymm : ∀ {x y : EmissionsRecord},
      ¬(x.country = y.country ∧ x.year = y.year) →
      ¬(y.country = x.country ∧ y.year = x.year) := by
    intro x y h hxy
    exact h ⟨hxy.1.symm, hxy.2.symm⟩
  have hPW2 := ((get_country_data_perm df c).pairwise_iff hsymm).mpr hPW
  refine List.Pairwise.imp_of_mem ?_ ((get_country_data_sorted df c).and hPW2)
  intro a b ha hb hab
  have hac : a.country = c := (mem_get_country_data.mp ha).2
  have hbc : b.country = c := (mem_get_country_data.mp hb).2
  have hle : a.year ≤ b.year := hab.1
  exact lt_of_le_of_ne hle (fun hy => hab.2 ⟨hac.trans hbc.symm, hy⟩)

/-- A country with no rows in the dataset has an empty frame. -/
theorem get_country_data_eq_nil {df : Dataset} {c : String}
    (h : ∀ r ∈ df, r.country ≠ c) : get_country_data (some df) c = [] := by
  show List.insertionSort yearLE (df.filter (fun r => r.country == c)) = []
  have hfil : df.filter (fun r => r.country == c) = [] := by
    rw [List.filter_eq_nil_iff]
    intro r hr
    simpa using h r hr
  rw [hfil]
  rfl

/-- Every year of a frame is bounded by latest_year. -/
theorem latest_year_ge : ∀ {cd : Dataset} {x : EmissionsRecord},
    x ∈ cd → x.year ≤ latest_year cd := by
  intro cd
  induction cd with
  | nil => intro x hx; cases hx
  | cons a rest ih =>
    intro x hx
    cases rest with
    | nil =>
      rcases List.mem_cons.mp hx with rfl | h
      · exact le_refl _
      · simp at h
    | cons s t =>
      rcases List.mem_cons.mp hx with rfl | h
      · exact le_max_left _ _
      · exact le_trans (ih h) (le_max_right _ _)

/-- latest_year of a nonempty frame is attained by one of its rows. -/
theorem latest_year_mem : ∀ {cd : Dataset}, cd ≠ [] →
    ∃ x ∈ cd, latest_year cd = x.year := by
  intro cd
  induction cd with
  | nil => intro h; exact absurd rfl h
  | cons a rest ih =>
    intro _
    cases rest with
    | nil => exact ⟨a, List.mem_cons_self a [], rfl⟩
    | cons s t =>
      rcases max_choice a.year (latest_year (s :: t)) with hm | hm
      · exact ⟨a, List.mem_cons_self a _, hm⟩
      · obtain ⟨x, hx, hxy⟩ := ih (by simp)
        exact ⟨x, List.mem_cons_of_mem a hx, by rw [show latest_year (a :: s :: t) = max a.year (latest_year (s :: t)) from rfl, hm, hxy]⟩

/-- latest_year equals the year of any row that dominates all years of
the frame. -/
theorem latest_year_eq {cd : Dataset} {r : EmissionsRecord} (hr : r ∈ cd)
    (hmax : ∀ x ∈ cd, x.year ≤ r.year) : latest_year cd = r.year := by
  obtain ⟨x, hx, hxy⟩ := latest_year_mem (List.ne_nil_of_mem hr)
  have h1 : x.year ≤ r.year := hmax x hx
  have h2 : r.year ≤ x.year := by rw [← hxy]; exact latest_year_ge hr
  rw [hxy]
  exact le_antisymm h1 h2

/-- first_max_by returns none exactly on the empty frame. -/
theorem first_max_by_eq_none {f : EmissionsRecord → ℚ} :
    ∀ {l : Dataset}, first_max_by f l = none ↔ l = [] := by
  intro l
  cases l with
  | nil => simp [first_max_by]
  | cons a rest =>
    simp only [first_max_by]
    constructor
    · intro h
      cases hm : first_max_by f rest with
      | none => rw [hm] at h; cases h
      | some b => rw [hm] at h; revert h; by_cases hf : f a < f b <;> simp [hf]
    · intro h; cases h

/-- first_max_by on a nonempty year-sorted frame returns a row that
attains the maximum of f and, among the rows attaining it, has the least
year (the first such row of the frame). -/
theorem first_max_by_spec (f : EmissionsRecord → ℚ) :
    ∀ (l : Dataset), l ≠ [] → List.Pairwise yearLE l →
      ∃ r, first_max_by f l = some r ∧ r ∈ l ∧ (∀ x ∈ l, f x ≤ f r) ∧
        (∀ x ∈ l, f x = f r → r.year ≤ x.year) := by
  intro l
  induction l with
  | nil => intro h; exact absurd rfl h
  | cons a rest ih =>
    intro _ hPW
    cases hm : first_max_by f rest with
    | none =>
      have hrest : rest = [] := first_max_by_eq_none.mp hm
      subst hrest
      refine ⟨a, ?_, List.mem_cons_self a [], ?_, ?_⟩
      · simp [first_max_by]
      · intro x hx
        rcases List.mem_cons.mp hx with rfl | h
        · exact le_refl _
        · simp at h
      · intro x hx _
        rcases List.mem_cons.mp hx with rfl | h
        · exact le_refl _
        · simp at h
    | some b =>
      have hrne : rest ≠ [] := by
        intro h
        subst h
        simp [first_max_by] at hm
      obtain ⟨b', hb'eq, hbmem, hbmax, hbfirst⟩ := ih hrne hPW.of_cons
      rw [hm] at hb'eq
      injection hb'eq with hbb
      subst hbb
      have hhead : ∀ x ∈ rest, a.year ≤ x.year := (List.pairwise_cons.mp hPW).1
      by_cases hf : f a < f b
      · refine ⟨b, ?_, List.mem_cons_of_mem a hbmem, ?_, ?_⟩
        · simp [first_max_by, hm, hf]
        · intro x hx
          rcases List.mem_cons.mp hx with rfl | h
          · exact le_of_lt hf
          · exact hbmax x h
        · intro x hx hfx
          rcases List.mem_cons.mp hx with rfl | h
          · exact absurd hfx (ne_of_lt hf)
          · exact hbfirst x h hfx
      · refine ⟨a, ?_, List.mem_cons_self a rest, ?_, ?_⟩
        · simp [first_max_by, hm, hf]
        · intro x hx
          rcases List.mem_cons.mp hx with rfl | h
          · exact le_refl _
          · exact le_trans (hbmax x h) (not_lt.mp hf)
        · intro x hx _
          rcases List.mem_cons.mp hx with rfl | h
          · exact le_refl _
          · exact hhead x h

/-- The comparison fold is the filterMap of its per-country body. -/
theorem comparison_data_eq_filterMap (df : Option Dataset)
    (countries : List String) :
    comparison_data df countries = countries.filterMap (snapshot_entry df) := by
  show List.foldl _ [] countries = _
  suffices h : ∀ (cs : List String) (acc : List ComparisonEntry),
      cs.foldl (fun acc country => match snapshot_entry df country with
        | some e => acc ++ [e]
        | none => acc) acc
        = acc ++ cs.filterMap (snapshot_entry df) by
    simpa using h countries []
  intro cs
  induction cs with
  | nil => intro acc; simp
  | cons c cs ih =>
    intro acc
    cases h : snapshot_entry df c with
    | none => simp [List.foldl_cons, h, ih, List.filterMap_cons]
    | some e => simp [List.foldl_cons, h, ih, List.filterMap_cons]

end CarbonTracker

namespace CarbonTracker

/-- C1: calculate_emissions never propagates a model failure: for every
model, country and year, if model.predict raises (returns an error), the
function returns the documented fallback constant 5000.0 instead. -/
theorem calculate_emissions_fallback (model : ResolvedModel) (country : String)
    (year : Int) (e : String) (h : model.predictE country year = .error e) :
    calculate_emissions model country year = 5000 := by
  unfold calculate_emissions
  rw [h]

/-- Witness for C1: a concrete model whose predict always raises yields
exactly 5000 on a concrete query. -/
theorem calculate_emissions_fallback_witness :
    calculate_emissions modelBroken "Kenya" 2025 = 5000 :=
  calculate_emissions_fallback modelBroken "Kenya" 2025
    "transformers given as strings" rfl

/-- C2: ground truth takes precedence over prediction.  Under the
uniqueness invariant, when an exact (country, year) row exists in the
dataset the current-emissions computation of main returns that row's
stored Per_Capita_CO2_kg for every model (so the model is not consulted:
the result does not depend on it), and only when no such row exists does
it delegate to calculate_emissions. -/
theorem current_emissions_ground_truth (emissions_df : Dataset)
    (country : String) (year : Int) (hU : uniqueCountryYear emissions_df) :
    (∀ r ∈ emissions_df, r.country = country → r.year = year →
      ∀ model, current_emissions emissions_df model country year = r.perCapitaCO2)
    ∧ ((∀ r ∈ emissions_df, ¬(r.country = country ∧ r.year = year)) →
      ∀ model, current_emissions emissions_df model country year
        = calculate_emissions model country year) := by
  constructor
  · intro r hr hrc hry model
    have hrmem : r ∈ get_country_data (some emissions_df) country :=
      mem_get_country_data.mpr ⟨hr, hrc⟩
    have hrfil : r ∈ (get_country_data (some emissions_df) country).filter
        (fun x => x.year == year) :=
      List.mem_filter.mpr ⟨hrmem, by simpa using hry⟩
    cases hfl : (get_country_data (some emissions_df) country).filter
        (fun x => x.year == year) with
    | nil => rw [hfl] at hrfil; simp at hrfil
    | cons a t =>
      have ha : a ∈ (get_country_data (some emissions_df) country).filter
          (fun x => x.year == year) := by
        rw [hfl]
        exact List.mem_cons_self a t
      obtain ⟨hace, hay⟩ := List.mem_filter.mp ha
      obtain ⟨hadf, hac⟩ := mem_get_country_data.mp hace
      have hay' : a.year = year := by simpa using hay
      have har : a = r :=
        unique_pair_eq hU hadf hr (hac.trans hrc.symm) (hay'.trans hry.symm)
      unfold current_emissions
      rw [hfl]
      simp [har]
  · intro hno model
    have hfl : (get_country_data (some emissions_df) country).filter
        (fun x => x.year == year) = [] := by
      rw [List.filter_eq_nil_iff]
      intro x hx
      obtain ⟨hxdf, hxc⟩ := mem_get_country_data.mp hx
      have := hno x hxdf
      simp only [hxc, true_and] at this
      simpa using this
    unfold current_emissions
    rw [hfl]
    rfl

/-- Witness for C2 on the sample dataset: the stored row (A, 2019, 100)
is returned as-is, and a year absent from the series delegates to
calculate_emissions. -/
theorem current_emissions_ground_truth_witness :
    current_emissions sampleDf modelConst "A" 2019 = 100
    ∧ current_emissions sampleDf modelConst "A" 2025
      = calculate_emissions modelConst "A" 2025 :=
  ⟨(current_emissions_ground_truth sampleDf "A" 2019 (by decide)).1
      ⟨"A", 2019, 100⟩ (by decide) rfl rfl modelConst,
   (current_emissions_ground_truth sampleDf "A" 2025 (by decide)).2
      (by decide) modelConst⟩

/-- C6: get_country_data returns exactly the rows whose Country equals
the query (a permutation of the country filter of the dataset, each
member having the queried country), sorted ascending by year — strictly
ascending under the uniqueness invariant — and the empty sequence when
the country has no rows. -/
theorem get_country_data_series (emissions_df : Dataset) (country : String) :
    (get_country_data (some emissions_df) country).Perm
      (emissions_df.filter (fun r => r.country == country))
    ∧ (∀ r ∈ get_country_data (some emissions_df) country, r.country = country)
    ∧ List.Pairwise yearLE (get_country_data (some emissions_df) country)
    ∧ (uniqueCountryYear emissions_df →
        List.Pairwise (fun a b => a.year < b.year)
          (get_country_data (some emissions_df) country))
    ∧ ((∀ r ∈ emissions_df, r.country ≠ country) →
        get_country_data (some emissions_df) country = []) :=
  ⟨get_country_data_perm emissions_df country,
   fun _ hr => (mem_get_country_data.mp hr).2,
   get_country_data_sorted emissions_df country,
   fun hU => get_country_data_strict hU country,
   fun h => get_country_data_eq_nil h⟩

/-- Witness for C6 on the sample dataset: the A-series is strictly
ascending by year, and a country with no rows yields the empty frame. -/
theorem get_country_data_series_witness :
    List.Pairwise (fun a b => a.year < b.year)
      (get_country_data (some sampleDf) "A")
    ∧ get_country_data (some sampleDf) "Z" = [] :=
  ⟨(get_country_data_series sampleDf "A").2.2.2.1 (by decide),
   (get_country_data_series sampleDf "Z").2.2.2.2 (by decide)⟩

/-- C7: the reduction targets are exactly three entries valued 0.5, 0.3
and 0.1 times the current value, and for every positive current value the
strict chain long-term < mid-term < near-term < current holds. -/
theorem get_reduction_targets_spec (v : ℚ) :
    (get_reduction_targets v).length = 3
    ∧ (get_reduction_targets v).map Prod.snd = [0.5 * v, 0.3 * v, 0.1 * v]
    ∧ (0 < v → 0.1 * v < 0.3 * v ∧ 0.3 * v < 0.5 * v ∧ 0.5 * v < v) := by
  refine ⟨rfl, ?_, ?_⟩
  · simp [get_reduction_targets, mul_comm]
  · intro hv
    refine ⟨by nlinarith, by nlinarith, by nlinarith⟩

/-- Witness for C7 at the concrete value 100: targets are 50, 30, 10 and
the strict chain holds. -/
theorem get_reduction_targets_witness :
    (get_reduction_targets 100).map Prod.snd = [0.5 * 100, 0.3 * 100, 0.1 * 100]
    ∧ ((0.1 : ℚ) * 100 < 0.3 * 100 ∧ (0.3 : ℚ) * 100 < 0.5 * 100
        ∧ (0.5 : ℚ) * 100 < 100) :=
  ⟨(get_reduction_targets_spec 100).2.1,
   (get_reduction_targets_spec 100).2.2 (by norm_num)⟩

/-- C9: with a None dataset get_country_data returns the empty frame for
every country instead of raising — the accessor is total when dataset
loading failed. -/
theorem get_country_data_none_total (country : String) :
    get_country_data none country = [] :=
  rfl

end CarbonTracker

namespace CarbonTracker

/-- C3 counterexample: in the scenario where fitting succeeds and
persisting the pipeline raises, rebuild_model returns None rather than
the fitted in-memory pipeline — the dump call sits inside the same
try/except as the fit, so a persistence failure is fatal to the rebuild,
refuting the claim that the fitted model is returned regardless. -/
theorem rebuild_model_none_on_dump_error :
    envDumpFails.fit sampleDf = .ok fittedSample
    ∧ (∃ e, envDumpFails.dump fittedSample = .error e)
    ∧ rebuild_model envDumpFails sampleDf = none
    ∧ ∀ p, rebuild_model envDumpFails sampleDf ≠ some p :=
  ⟨rfl, ⟨"PermissionError", rfl⟩, rfl, fun _ h => Option.noConfusion h⟩

/-- C3 amended: rebuild_model returns the fitted in-memory pipeline only
when persisting it also succeeds; when fitting succeeds but joblib.dump
raises, the shared catch-all returns None (after surfacing an error), so
a persistence failure discards the fitted model instead of being
non-fatal. -/
theorem rebuild_model_requires_dump (env : Env) (emissions_df : Dataset)
    (p : FittedPipeline) (hfit : env.fit emissions_df = .ok p) :
    (env.dump p = .ok () → rebuild_model env emissions_df = some p)
    ∧ (∀ e, env.dump p = .error e → rebuild_model env emissions_df = none) := by
  constructor
  · intro hd
    simp [rebuild_model, hfit, hd]
  · intro e hd
    simp [rebuild_model, hfit, hd]

/-- Witness for the amended C3: with persisting succeeding the fitted
pipeline is returned; with persisting raising the result is None. -/
theorem rebuild_model_requires_dump_witness :
    rebuild_model envRebuildOk sampleDf = some fittedSample
    ∧ rebuild_model envDumpFails sampleDf = none :=
  ⟨(rebuild_model_requires_dump envRebuildOk sampleDf fittedSample rfl).1 rfl,
   (rebuild_model_requires_dump envDumpFails sampleDf fittedSample rfl).2
      "PermissionError" rfl⟩

/-- C4 counterexample: dataset loading succeeds and rebuilding fails;
load_resources does hand the loaded dataset (and country list) back, yet
main aborts at its resource check before rendering any view, so the
dataset is not available for browsing — refuting the claim that only
prediction-dependent views become unavailable. -/
theorem main_aborts_without_model :
    (load_resources envNoModel).emissions_df = some sampleDf
    ∧ rebuild_model envNoModel sampleDf = none
    ∧ main_outcome envNoModel = .abortNoModel :=
  ⟨rfl, rfl, rfl⟩

/-- C4 amended: when the dataset has loaded but no model can be resolved,
load_resources still returns the dataset and country list next to a None
model, but main then shows an error and returns immediately, so nothing —
not even a degraded dataset-browsing view — is rendered. -/
theorem main_degraded_mode_not_implemented (env : Env) (emissions_df : Dataset)
    (hcsv : env.readCsv = .ok emissions_df)
    (hfail : ∃ e, load_and_smoke env = .error e)
    (hreb : rebuild_model env emissions_df = none) :
    (load_resources env).emissions_df = some emissions_df
    ∧ (load_resources env).model = none
    ∧ main_outcome env = .abortNoModel := by
  obtain ⟨e, he⟩ := hfail
  have hlr : load_resources env
      = ⟨none, some emissions_df, country_list_of emissions_df, 1⟩ := by
    simp only [load_resources, hcsv, he, hreb]
  refine ⟨by rw [hlr], by rw [hlr], ?_⟩
  unfold main_outcome
  rw [hlr]

/-- Witness for the amended C4 at the concrete no-model scenario. -/
theorem main_degraded_mode_not_implemented_witness :
    (load_resources envNoModel).emissions_df = some sampleDf
    ∧ (load_resources envNoModel).model = none
    ∧ main_outcome envNoModel = .abortNoModel :=
  main_degraded_mode_not_implemented envNoModel sampleDf rfl
    ⟨"FileNotFoundError", rfl⟩ rfl

/-- C5: when loading the persisted artifact raises or the smoke test on
(United States, 2020) raises, load_resources invokes rebuild_model
exactly once on the full dataset and uses its output as the resolved
model; whenever the rebuild produces a pipeline, that pipeline answers
the smoke-test input without error. -/
theorem load_resources_rebuild_path (env : Env) (emissions_df : Dataset)
    (hcsv : env.readCsv = .ok emissions_df)
    (hfail : (∃ e, env.loadArtifact = .error e) ∨
      (∃ a e, env.loadArtifact = .ok a ∧ smoke_test a = .error e)) :
    (load_resources env).rebuild_calls = 1
    ∧ (load_resources env).model
        = (rebuild_model env emissions_df).map ResolvedModel.rebuilt
    ∧ (∀ p, rebuild_model env emissions_df = some p →
        ∃ q, ResolvedModel.predictE (.rebuilt p) "United States" 2020 = .ok q) := by
  have hls : ∃ e, load_and_smoke env = .error e := by
    rcases hfail with ⟨e, he⟩ | ⟨a, e, ha, hs⟩
    · exact ⟨e, by simp [load_and_smoke, he]⟩
    · exact ⟨e, by simp [load_and_smoke, ha, hs]⟩
  obtain ⟨e, he⟩ := hls
  refine ⟨?_, ?_, fun p _ => ⟨p.predict "United States" 2020, rfl⟩⟩ <;>
  · simp only [load_resources, hcsv, he]
    cases hrb : rebuild_model env emissions_df <;> simp [hrb]

/-- Witness for C5: the artifact is absent and the rebuild succeeds; the
resolver reports one rebuild call and adopts the rebuilt pipeline. -/
theorem load_resources_rebuild_path_witness :
    (load_resources envRebuildOk).rebuild_calls = 1
    ∧ (load_resources envRebuildOk).model
        = (rebuild_model envRebuildOk sampleDf).map ResolvedModel.rebuilt
    ∧ (∀ p, rebuild_model envRebuildOk sampleDf = some p →
        ∃ q, ResolvedModel.predictE (.rebuilt p) "United States" 2020 = .ok q) :=
  load_resources_rebuild_path envRebuildOk sampleDf rfl
    (Or.inl ⟨"FileNotFoundError", rfl⟩)

/-- C8: the comparison snapshot is the filterMap of the per-country entry
over the requested countries (one entry per requested country with data,
in request order, no error for the others); a requested country with no
rows is silently skipped, and under the uniqueness invariant a country
whose latest row is (country, year, value) contributes exactly the entry
with that year and value. -/
theorem comparison_snapshot_spec (emissions_df : Dataset)
    (countries : List String) :
    comparison_data (some emissions_df) countries
      = countries.filterMap (snapshot_entry (some emissions_df))
    ∧ (∀ c, (∀ r ∈ emissions_df, r.country ≠ c) →
        snapshot_entry (some emissions_df) c = none)
    ∧ (uniqueCountryYear emissions_df → ∀ c r, r ∈ emissions_df →
        r.country = c → (∀ x ∈ emissions_df, x.country = c → x.year ≤ r.year) →
        snapshot_entry (some emissions_df) c
          = some ⟨c, r.year, r.perCapitaCO2⟩) := by
  refine ⟨comparison_data_eq_filterMap (some emissions_df) countries, ?_, ?_⟩
  · intro c h
    unfold snapshot_entry
    rw [if_pos (get_country_data_eq_nil h)]
  · intro hU c r hr hrc hmax
    have hrce : r ∈ get_country_data (some emissions_df) c :=
      mem_get_country_data.mpr ⟨hr, hrc⟩
    have hne : get_country_data (some emissions_df) c ≠ [] :=
      List.ne_nil_of_mem hrce
    have hly : latest_year (get_country_data (some emissions_df) c) = r.year := by
      refine latest_year_eq hrce ?_
      intro x hx
      obtain ⟨hxdf, hxc⟩ := mem_get_country_data.mp hx
      exact hmax x hxdf hxc
    have hrfil : r ∈ (get_country_data (some emissions_df) c).filter
        (fun x => x.year == latest_year (get_country_data (some emissions_df) c)) :=
      List.mem_filter.mpr ⟨hrce, by simp [hly]⟩
    cases hfl : (get_country_data (some emissions_df) c).filter
        (fun x => x.year == latest_year (get_country_data (some emissions_df) c)) with
    | nil => rw [hfl] at hrfil; simp at hrfil
    | cons a t =>
      have ha : a ∈ (get_country_data (some emissions_df) c).filter
          (fun x => x.year == latest_year (get_country_data (some emissions_df) c)) := by
        rw [hfl]
        exact List.mem_cons_self a t
      obtain ⟨hace, hay⟩ := List.mem_filter.mp ha
      obtain ⟨hadf, hac⟩ := mem_get_country_data.mp hace
      have hay' : a.year = r.year := by
        rw [← hly]
        simpa using hay
      have har : a = r := unique_pair_eq hU hadf hr (hac.trans hrc.symm) hay'
      unfold snapshot_entry
      rw [if_neg hne, hfl]
      simp [har, hly]

/-- Witness for C8 on the sample dataset: the unknown country Z is
skipped, B contributes its 2019 row, and the full snapshot for the
request [B, Z] is the single B entry. -/
theorem comparison_snapshot_spec_witness :
    snapshot_entry (some sampleDf) "Z" = none
    ∧ snapshot_entry (some sampleDf) "B" = some ⟨"B", 2019, 300⟩
    ∧ comparison_data (some sampleDf) ["B", "Z"]
      = ["B", "Z"].filterMap (snapshot_entry (some sampleDf)) :=
  ⟨(comparison_snapshot_spec sampleDf ["B", "Z"]).2.1 "Z" (by decide),
   (comparison_snapshot_spec sampleDf ["B", "Z"]).2.2 (by decide) "B"
      ⟨"B", 2019, 300⟩ (by decide) rfl (by decide),
   (comparison_snapshot_spec sampleDf ["B", "Z"]).1⟩

/-- C10: on a nonempty country series the historical-peak computation
reports a row attaining the maximum per-capita value whose year is least
among all rows attaining that maximum — idxmax takes the first maximum of
the year-ascending series, hence the earliest such year. -/
theorem historical_peak_first_max (emissions_df : Dataset) (country : String)
    (hne : get_country_data (some emissions_df) country ≠ []) :
    ∃ r ∈ get_country_data (some emissions_df) country,
      historical_peak (some emissions_df) country = some (r.perCapitaCO2, r.year)
      ∧ (∀ x ∈ get_country_data (some emissions_df) country,
          x.perCapitaCO2 ≤ r.perCapitaCO2)
      ∧ (∀ x ∈ get_country_data (some emissions_df) country,
          x.perCapitaCO2 = r.perCapitaCO2 → r.year ≤ x.year) := by
  obtain ⟨r, hfm, hmem, hmax, hfirst⟩ :=
    first_max_by_spec (fun x => x.perCapitaCO2)
      (get_country_data (some emissions_df) country) hne
      (get_country_data_sorted emissions_df country)
  refine ⟨r, hmem, ?_, hmax, hfirst⟩
  unfold historical_peak
  rw [hfm]

/-- Witness for C10 on the sample dataset, where country A attains its
maximum 100 in both 2017 and 2019: the peak is reported at 2017. -/
theorem historical_peak_first_max_witness :
    historical_peak (some sampleDf) "A" = some (100, 2017)
    ∧ ∃ r ∈ get_country_data (some sampleDf) "A",
        historical_peak (some sampleDf) "A" = some (r.perCapitaCO2, r.year)
        ∧ (∀ x ∈ get_country_data (some sampleDf) "A",
            x.perCapitaCO2 ≤ r.perCapitaCO2)
        ∧ (∀ x ∈ get_country_data (some sampleDf) "A",
            x.perCapitaCO2 = r.perCapitaCO2 → r.year ≤ x.year) :=
  ⟨by decide, historical_peak_first_max sampleDf "A" (by decide)⟩

end CarbonTracker
